import Mathlib

/-!
Verification model of katana-sdk-node's `ZMQRuntimeCaller` and `ActionSchema`
(src/sdk/zmq-runtime-caller.js).  JavaScript values are embedded as the
inductive `JsValue`; exceptions thrown by JS code (both explicit `throw` and
runtime `TypeError`s) are embedded as `Except JsError`.
-/

namespace Katana

/-- A JavaScript value: the dynamic values the SDK code manipulates.
Numbers are modelled as integers (the code only uses integral literals). -/
inductive JsValue : Type where
  | undefined : JsValue
  | null : JsValue
  | bool : Bool → JsValue
  | num : Int → JsValue
  | str : String → JsValue
  | arr : List JsValue → JsValue
  | obj : List (String × JsValue) → JsValue

/-- A JavaScript exception: `thrown` for an explicit `throw new Error(msg)`,
`typeError` for a TypeError raised by the runtime (e.g. calling a method on a
non-object). -/
inductive JsError : Type where
  | thrown : String → JsError
  | typeError : String → JsError
deriving DecidableEq

/-- JavaScript truthiness of a value (as used by `if (x)` / `x && y`). -/
def jsTruthy : JsValue → Bool
  | .undefined => false
  | .null => false
  | .bool b => b
  | .num n => n != 0
  | .str s => s != ""
  | .arr _ => true
  | .obj _ => true

/-- JavaScript strict equality `===` on the values that occur in the modelled
comparisons (primitives; two object/array values compare by reference in JS,
which never arises in the compared positions of this code, so they are mapped
to `false`). -/
def jsStrictEq : JsValue → JsValue → Bool
  | .undefined, .undefined => true
  | .null, .null => true
  | .bool a, .bool b => a == b
  | .num a, .num b => a == b
  | .str a, .str b => a == b
  | _, _ => false

/-- Property access `xs[key]` on a JS array for a string key: only canonical
index properties ("0", "1", ...) are modelled, which are the only ones this
code can hit. -/
def jsIndexGet {α : Type} (xs : List α) (key : String) : Option α :=
  match (List.range xs.length).find? (fun i => toString i == key) with
  | some i => xs.get? i
  | none => none

/-- Property access `v[key]` for a string key.  On objects it reads the named
field, on arrays the canonical index property; an absent property reads as
`undefined`, as does property access on primitives. -/
def jsGet : JsValue → String → JsValue
  | .obj fs, key =>
    match fs.lookup key with
    | some v => v
    | none => .undefined
  | .arr xs, key =>
    match jsIndexGet xs key with
    | some v => v
    | none => .undefined
  | _, _ => .undefined

/-- `Object.keys(v)`: own enumerable property names.  Throws a TypeError on
`null`/`undefined`; yields field names on objects, index strings on
arrays/strings, and the empty list on other primitives. -/
def jsObjectKeys : JsValue → Except JsError (List String)
  | .undefined => .error (.typeError "Cannot convert undefined or null to object")
  | .null => .error (.typeError "Cannot convert undefined or null to object")
  | .obj fs => .ok (fs.map (fun p => p.1))
  | .arr xs => .ok ((List.range xs.length).map (fun i => toString i))
  | .str s => .ok ((List.range s.length).map (fun i => toString i))
  | _ => .ok []

/-- `v.map(f)`: defined on arrays only; on any other value JS raises a
TypeError ("map is not a function"). -/
def jsMapArray (v : JsValue) (f : JsValue → JsValue) : Except JsError (List JsValue) :=
  match v with
  | .arr xs => .ok (xs.map f)
  | _ => .error (.typeError "map is not a function")

/-- `v.filter(p)` keeping the elements on which the callback's result is
truthy: defined on arrays only; on any other value JS raises a TypeError. -/
def jsFilterArray (v : JsValue) (p : JsValue → JsValue) : Except JsError (List JsValue) :=
  match v with
  | .arr xs => .ok (xs.filter (fun x => jsTruthy (p x)))
  | _ => .error (.typeError "filter is not a function")

/-- Modelled from the spec: `Schema.readProperty(mapping, key, default)` lives
in schema.js, which is not part of the sources; per the spec every optional
field not present takes its documented default, so it returns the mapped value
when the key is present and the supplied default otherwise. -/
def Schema.readProperty (mapping : JsValue) (key : String) (dflt : JsValue) : JsValue :=
  match jsGet mapping key with
  | .undefined => dflt
  | v => v

/-- Modelled from the spec: ParamSchema (param-schema.js is not part of the
sources) parses one param sub-mapping; the name is taken from the mapping key.
Only the declared name is consulted by the ActionSchema operations. -/
structure ParamSchema : Type where
  _name : String
deriving DecidableEq

/-- Modelled from the spec: `ParamSchema.fromMapping(name, mapping)` keeps the
key as the declared name (§6: "the name itself taken from the key"). -/
def ParamSchema.fromMapping (name : String) (_mapping : JsValue) : ParamSchema :=
  { _name := name }

/-- Modelled from the spec: FileSchema (file-schema.js is not part of the
sources) parses one file sub-mapping, named by its key. -/
structure FileSchema : Type where
  _name : String
deriving DecidableEq

/-- Modelled from the spec: `FileSchema.fromMapping(name, mapping)` keeps the
key as the declared name. -/
def FileSchema.fromMapping (name : String) (_mapping : JsValue) : FileSchema :=
  { _name := name }

/-- Modelled from the spec (§3 EntityDescriptor): ActionEntity
(action-entity.js is not part of the sources) stores the entity path, path
delimiter, primary key, collection flag and entity definition it is
constructed with. -/
structure ActionEntity : Type where
  _entityPath : JsValue
  _pathDelimiter : JsValue
  _primaryKey : JsValue
  _collection : JsValue
  _entity : JsValue

def ActionEntity.getEntityPath (e : ActionEntity) : JsValue :=
  e._entityPath

def ActionEntity.getPathDelimiter (e : ActionEntity) : JsValue :=
  e._pathDelimiter

def ActionEntity.isCollection (e : ActionEntity) : JsValue :=
  e._collection

/-- Modelled from the spec: ReturnValueSchema (return-value-schema.js is not
part of the sources) is the optional return-value sub-schema; only its
declared type is consulted here. -/
structure ReturnValueSchema : Type where
  _type : JsValue

def ReturnValueSchema.getType (r : ReturnValueSchema) : JsValue :=
  r._type

/-- Modelled from the spec: an absent `return` sub-mapping yields no
return-value schema (the field is optional, §3); a present one parses to a
schema carrying its declared type. -/
def ReturnValueSchema.fromMapping (v : JsValue) : Option ReturnValueSchema :=
  match v with
  | .undefined => none
  | w => some { _type := jsGet w "type" }

/-- Modelled from the spec: the HTTP sub-schema is opaque to this core (§1),
so its parse keeps the raw sub-mapping. -/
def HttpActionSchema.fromMapping (v : JsValue) : JsValue :=
  v

/-- Modelled from the spec: the transport-fallback sub-schema is likewise kept
opaque. -/
def TransportFallbackSchema.fromMapping (v : JsValue) : JsValue :=
  v

/-- Modelled from the spec: RelationSchema parses one relation fragment; the
parse is opaque to the claims, so it keeps the raw element. -/
def ActionRelationSchema.parseMapping (v : JsValue) : JsValue :=
  v

/-- The ActionSchema object: one field per assignment in the source
constructor.  `_params` and `_files` hold what `fromMapping` passes: JS arrays
of sub-schemas (the constructor defaults `{}` are never exercised by the
claims).  `_calls`, `_deferredCalls` and `_remoteCalls` are kept as raw JS
values because `fromMapping` passes the boolean `false` when the mapping omits
them.  `_returnValue` is `none` for JS `null`. -/
structure ActionSchema : Type where
  _name : String
  _timeout : JsValue
  _entity : ActionEntity
  _transportFallback : JsValue
  _httpSchema : JsValue
  _deprecated : JsValue
  _params : List ParamSchema
  _files : List FileSchema
  _relations : List JsValue
  _tags : JsValue
  _calls : JsValue
  _deferredCalls : JsValue
  _remoteCalls : JsValue
  _returnValue : Option ReturnValueSchema

/-- `ActionSchema.fromMapping(name, mapping)`.  The three JS expressions that
can raise a TypeError on a malformed mapping (`Object.keys` over the params
and files sub-mappings when they are present but `null`, and `.map` over a
present non-array `relations`) are sequenced in source order; everything else
is the straight transcription of the constructor call, including the `false`
defaults passed for `calls`, `deferred_calls` and `remote_calls`. -/
def ActionSchema.fromMapping (name : String) (mapping : JsValue) : Except JsError ActionSchema :=
  let transportFallbackSchema := TransportFallbackSchema.fromMapping (jsGet mapping "fallback")
  let actionEntity : ActionEntity :=
    { _entityPath := Schema.readProperty mapping "entity_path" (.str "")
      _pathDelimiter := Schema.readProperty mapping "path_delimiter" (.str "/")
      _primaryKey := Schema.readProperty mapping "primary_key" (.str "id")
      _collection := Schema.readProperty mapping "collection" (.bool false)
      _entity := Schema.readProperty mapping "entity" (.obj []) }
  let httpActionSchema := HttpActionSchema.fromMapping (jsGet mapping "http")
  let returnValueSchema := ReturnValueSchema.fromMapping (jsGet mapping "return")
  let paramsObject := Schema.readProperty mapping "params" (.obj [])
  let filesMappingArray := Schema.readProperty mapping "files" (.arr [])
  match jsObjectKeys paramsObject,
        jsObjectKeys filesMappingArray,
        jsMapArray (Schema.readProperty mapping "relations" (.arr []))
          ActionRelationSchema.parseMapping with
  | .error e, _, _ => .error e
  | _, .error e, _ => .error e
  | _, _, .error e => .error e
  | .ok paramKeys, .ok fileKeys, .ok relations =>
    .ok
      { _name := name
        _timeout := Schema.readProperty mapping "timeout" (.num 1000)
        _entity := actionEntity
        _transportFallback := transportFallbackSchema
        _httpSchema := httpActionSchema
        _deprecated := Schema.readProperty mapping "is_deprecated" (.bool false)
        _params := paramKeys.map (fun k => ParamSchema.fromMapping k (jsGet paramsObject k))
        _files := fileKeys.map (fun k => FileSchema.fromMapping k (jsGet filesMappingArray k))
        _relations := relations
        _tags := Schema.readProperty mapping "tags" (.arr [])
        _calls := Schema.readProperty mapping "calls" (.bool false)
        _deferredCalls := Schema.readProperty mapping "deferred_calls" (.bool false)
        _remoteCalls := Schema.readProperty mapping "remote_calls" (.bool false)
        _returnValue := returnValueSchema }

def ActionSchema.isDeprecated (s : ActionSchema) : JsValue :=
  s._deprecated

def ActionSchema.isCollection (s : ActionSchema) : JsValue :=
  s._entity.isCollection

def ActionSchema.getName (s : ActionSchema) : String :=
  s._name

def ActionSchema.getEntityPath (s : ActionSchema) : JsValue :=
  s._entity.getEntityPath

def ActionSchema.getPathDelimiter (s : ActionSchema) : JsValue :=
  s._entity.getPathDelimiter

def ActionSchema.getTimeout (s : ActionSchema) : JsValue :=
  s._timeout

/-- The property read `this._entityPath` performed by `resolveEntity`.  The
`ActionSchema` constructor assigns the entity descriptor to `this._entity` and
never assigns `this._entityPath` (the accessor `getEntityPath` reads
`this._entity.getEntityPath()`), so in JavaScript this property read always
yields `undefined`. -/
def ActionSchema.entityPathProp (_s : ActionSchema) : JsValue :=
  .undefined

/-- The property read `this._pathDelimiter` performed by `resolveEntity`:
likewise never assigned by the constructor, hence `undefined`. -/
def ActionSchema.pathDelimiterProp (_s : ActionSchema) : JsValue :=
  .undefined

/-- The `keys.forEach` descent of `resolveEntity`: for each path segment,
`typeof data[key] === typeof undefined` throws the resolution error naming the
action, otherwise `data = data[key]`. -/
def resolveEntityKeys (actionName : String) : List String → JsValue → Except JsError JsValue
  | [], data => .ok data
  | key :: rest, data =>
    match jsGet data key with
    | .undefined => .error (.thrown ("Cannot resolve entity for action: " ++ actionName))
    | v => resolveEntityKeys actionName rest v

/-- `resolveEntity(data)`: `if (!this._entityPath) return data;` then split by
`this._pathDelimiter` and descend.  Both property reads yield `undefined` (see
`entityPathProp`), so the guard always takes the early return; the split-and-
descend branch is transcribed for completeness but is unreachable. -/
def ActionSchema.resolveEntity (s : ActionSchema) (data : JsValue) : Except JsError JsValue :=
  if !jsTruthy s.entityPathProp then
    .ok data
  else
    match s.entityPathProp, s.pathDelimiterProp with
    | .str path, .str delim => resolveEntityKeys s._name (path.splitOn delim) data
    | _, _ => .error (.typeError "split is not a function")

def ActionSchema.hasRelations (s : ActionSchema) : Bool :=
  s._relations.length > 0

def ActionSchema.getRelations (s : ActionSchema) : List JsValue :=
  s._relations

/-- The filter callback of `ActionSchema._hasCalls`.  Each failed comparison
executes `return false`; when every supplied filter agrees, control falls off
the end of the callback, which in JavaScript returns `undefined` — the source
has no `return true`. -/
def hasCallsCallback (name version action : JsValue) (call : JsValue) : JsValue :=
  if !jsStrictEq name (jsGet call "serviceName") then
    .bool false
  else if jsTruthy version && !jsStrictEq version (jsGet call "serviceVersion") then
    .bool false
  else if jsTruthy action && !jsStrictEq action (jsGet call "actionName") then
    .bool false
  else
    .undefined

/-- `ActionSchema._hasCalls(source, name, version, action)`: filter the source
by the callback above and test `matching.length > 0`.  `source.filter` raises
a TypeError when the source is not an array (which happens for schemas built
by `fromMapping` from a mapping without the corresponding key, since the
default passed there is `false`). -/
def ActionSchema._hasCalls (source name version action : JsValue) : Except JsError Bool :=
  match jsFilterArray source (hasCallsCallback name version action) with
  | .ok matching => .ok (matching.length > 0)
  | .error e => .error e

def ActionSchema.hasCall (s : ActionSchema) (name : JsValue)
    (version : JsValue := .null) (action : JsValue := .null) : Except JsError Bool :=
  ActionSchema._hasCalls s._calls name version action

/-- `hasCalls()`: `this._calls.length > 0`.  On the boolean `false` the JS
property read `.length` yields `undefined` and `undefined > 0` is `false`, so
this accessor does not throw. -/
def ActionSchema.hasCalls (s : ActionSchema) : Bool :=
  match s._calls with
  | .arr xs => xs.length > 0
  | _ => false

def ActionSchema.getCalls (s : ActionSchema) : JsValue :=
  s._calls

def ActionSchema.hasDeferCall (s : ActionSchema) (name : JsValue)
    (version : JsValue := .null) (action : JsValue := .null) : Except JsError Bool :=
  ActionSchema._hasCalls s._deferredCalls name version action

def ActionSchema.hasDeferCalls (s : ActionSchema) : Bool :=
  match s._deferredCalls with
  | .arr xs => xs.length > 0
  | _ => false

def ActionSchema.getDeferCalls (s : ActionSchema) : JsValue :=
  s._deferredCalls

/-- The filter callback of `hasRemoteCall`: the address comparison is
unconditional, the other filters are guarded by truthiness; as in
`hasCallsCallback`, the all-match path falls through and returns
`undefined`. -/
def remoteCallsCallback (address name version action : JsValue) (call : JsValue) : JsValue :=
  if !jsStrictEq address (jsGet call "publicAddress") then
    .bool false
  else if jsTruthy name && !jsStrictEq name (jsGet call "serviceName") then
    .bool false
  else if jsTruthy version && !jsStrictEq version (jsGet call "serviceVersion") then
    .bool false
  else if jsTruthy action && !jsStrictEq action (jsGet call "actionName") then
    .bool false
  else
    .undefined

def ActionSchema.hasRemoteCall (s : ActionSchema) (address : JsValue)
    (name : JsValue := .null) (version : JsValue := .null) (action : JsValue := .null) :
    Except JsError Bool :=
  match jsFilterArray s._remoteCalls (remoteCallsCallback address name version action) with
  | .ok matching => .ok (matching.length > 0)
  | .error e => .error e

def ActionSchema.hasRemoteCalls (s : ActionSchema) : Bool :=
  match s._remoteCalls with
  | .arr xs => xs.length > 0
  | _ => false

def ActionSchema.getRemoteCalls (s : ActionSchema) : JsValue :=
  s._remoteCalls

/-- `hasReturn()`: `this._returnValue !== null`. -/
def ActionSchema.hasReturn (s : ActionSchema) : Bool :=
  s._returnValue.isSome

/-- `getReturnType()`: `this._returnValue.getType()` — a method call on
`null` raises a TypeError when no return-value schema is present. -/
def ActionSchema.getReturnType (s : ActionSchema) : Except JsError JsValue :=
  match s._returnValue with
  | none => .error (.typeError "Cannot read property getType of null")
  | some r => .ok r.getType

/-- `getParams()`: the declared param names, `this._params.map(p => p._name)`. -/
def ActionSchema.getParams (s : ActionSchema) : List String :=
  s._params.map (fun p => p._name)

/-- `hasParam(name)`: `this.getParams().includes(name)`. -/
def ActionSchema.hasParam (s : ActionSchema) (name : String) : Bool :=
  (s.getParams).contains name

/-- `getParamSchema(name)`: throws the resolution error when `hasParam` is
false; otherwise the source iterates `this._params.forEach(...)` whose
callback `return param` is swallowed by `forEach`, so the loop has no
observable effect and control reaches the trailing `return null` (modelled as
`.ok none`). -/
def ActionSchema.getParamSchema (s : ActionSchema) (name : String) :
    Except JsError (Option ParamSchema) :=
  if !s.hasParam name then
    .error (.thrown ("Cannot resolve schema for parameter: " ++ name))
  else
    .ok none

/-- `getFiles()`: `Object.keys(this._files)` — `this._files` holds the JS
array built by `fromMapping`, so these are index strings, not file names. -/
def ActionSchema.getFiles (s : ActionSchema) : List String :=
  (List.range s._files.length).map (fun i => toString i)

/-- `hasFile(name)`: `typeof this._files[name] !== typeof undefined` — an
indexing of the files array by the queried name. -/
def ActionSchema.hasFile (s : ActionSchema) (name : String) : Bool :=
  (jsIndexGet s._files name).isSome

/-- `getFileSchema(name)`: throws the resolution error when `hasFile` is
false; otherwise returns `this._files[name]` (`none` models the impossible
`undefined` after the guard). -/
def ActionSchema.getFileSchema (s : ActionSchema) (name : String) :
    Except JsError (Option FileSchema) :=
  if !s.hasFile name then
    .error (.thrown ("Cannot resolve schema for file parameter: " ++ name))
  else
    .ok (jsIndexGet s._files name)

/-- `hasTag(name)`: `this._tags.includes(name)`; `_tags` is an array for every
schema built by `fromMapping` (default `[]`). -/
def ActionSchema.hasTag (s : ActionSchema) (name : JsValue) : Except JsError Bool :=
  match s._tags with
  | .arr xs => .ok (xs.any (fun x => jsStrictEq x name))
  | _ => .error (.typeError "includes is not a function")

def ActionSchema.getTags (s : ActionSchema) : JsValue :=
  s._tags

def ActionSchema.getHttpSchema (s : ActionSchema) : JsValue :=
  s._httpSchema

/-- Modelled from the spec: the calling Action is an external collaborator
(§6); it exposes its own serialisable identity (placed at `arguments.action`)
and a transport-state snapshot accessor
(`action.getTransport()._getAsObject()`). -/
structure Action : Type where
  self : JsValue
  transportObj : JsValue

/-- A msgpack-encoded buffer, modelling the external binary codec as a
bijection: `msgpack.pack` wraps a value, `msgpack.unpack` unwraps it. -/
structure PackedBytes : Type where
  value : JsValue

def msgpackPack (v : JsValue) : PackedBytes :=
  { value := v }

def msgpackUnpack (p : PackedBytes) : JsValue :=
  p.value

/-- One ZeroMQ message frame: either raw bytes (the control frame `'\x01'`)
or a msgpack-encoded buffer. -/
inductive Frame : Type where
  | bytes : List Nat → Frame
  | packed : PackedBytes → Frame

/-- The `command` object literal built by `ZMQRuntimeCaller.call`.  The
mapping-key constants (`m.meta`, `m.command`, ...) live in mappings.js, which
is not part of the sources; they are modelled from the spec's wire-envelope
key names (§6). -/
def buildRuntimeCommand (action : Action) (service version targetAction : String)
    (params files : JsValue) : JsValue :=
  .obj
    [ ("meta", .obj [("service", .str "service")]),
      ("command", .obj
        [ ("name", .str "runtime-call"),
          ("arguments", .obj
            [ ("action", action.self),
              ("callee", .arr [.str service, .str version, .str targetAction]),
              ("transport", action.transportObj),
              ("params", params),
              ("files", files) ]) ]) ]

/-- The message text of the error thrown on timer expiry:
`Run-time call timed out for ${service} (${version}) "${targetAction}"`. -/
def timeoutMessage (service version targetAction : String) : String :=
  "Run-time call timed out for " ++ service ++ " (" ++ version ++ ") \"" ++
    targetAction ++ "\""

/-- The state of one runtime call after `ZMQRuntimeCaller.call` has run: the
frames handed to `socket.send`, the armed one-shot timer, the callee triple
captured by the timeout closure, the payloads forwarded so far to
`action._processRuntimeResponse` (modelled from the spec: the calling
action's single response-processing entry point, §6), and the uncaught
exception, if any, that escaped a timer callback (which in Node terminates
the process, so no further events are handled). -/
structure PendingCall : Type where
  frames : List Frame
  timerArmed : Bool
  service : String
  version : String
  targetAction : String
  delivered : List JsValue
  crashed : Option String

/-- `ZMQRuntimeCaller.call(action, service, version, targetAction, address,
params, files, timeout)`: builds the command, binds the reply socket,
registers `_parseReply` as the message handler, arms the timer and sends the
two-frame message `['\x01', msgpack.pack(command)]`. -/
def ZMQRuntimeCaller.call (action : Action) (service version targetAction : String)
    (params files : JsValue) : PendingCall :=
  { frames :=
      [ .bytes [0x01],
        .packed (msgpackPack (buildRuntimeCommand action service version targetAction
          params files)) ]
    timerArmed := true
    service := service
    version := version
    targetAction := targetAction
    delivered := []
    crashed := none }

/-- An event delivered to the pending call by the event loop: an incoming
reply frame, or the expiry of the armed timer. -/
inductive WireEvent : Type where
  | message : PackedBytes → WireEvent
  | timerFire : WireEvent

/-- One event-loop step.  A reply runs `_parseReply`: `clearTimeout` then
`action._processRuntimeResponse(msgpack.unpack(response))`.  Timer expiry
runs the `setTimeout` callback only if the timer is still armed
(`clearTimeout` prevents it): `socket.unref()` then `throw new Error(...)` —
an uncaught exception in a timer callback, which crashes the Node process, so
once `crashed` is set no further event is processed. -/
def stepCall (st : PendingCall) (e : WireEvent) : PendingCall :=
  if st.crashed.isSome then
    st
  else
    match e with
    | .message response =>
      { st with
          timerArmed := false
          delivered := st.delivered ++ [msgpackUnpack response] }
    | .timerFire =>
      if st.timerArmed then
        { st with
            timerArmed := false
            crashed := some (timeoutMessage st.service st.version st.targetAction) }
      else
        st

/-- Run a sequence of event-loop events against a pending call. -/
def runCall (st : PendingCall) (events : List WireEvent) : PendingCall :=
  events.foldl stepCall st

/-- An ActionSchema as produced by the source constructor with everything at
its default (no declared params, files, relations, tags, calls or return
value; the typed `_params`/`_files` stand in for the constructor's `{}`
defaults, which no claim exercises). -/
def baseSchema : ActionSchema :=
  { _name := "act"
    _timeout := .num 1000
    _entity :=
      { _entityPath := .str ""
        _pathDelimiter := .str "/"
        _primaryKey := .str "id"
        _collection := .bool false
        _entity := .obj [] }
    _transportFallback := .undefined
    _httpSchema := .undefined
    _deprecated := .bool false
    _params := []
    _files := []
    _relations := []
    _tags := .arr []
    _calls := .arr []
    _deferredCalls := .arr []
    _remoteCalls := .arr []
    _returnValue := none }

/-- When the key is present with a non-`undefined` value, `readProperty`
returns that value. -/
theorem readProperty_present (mp : JsValue) (key : String) (dflt v : JsValue)
    (h : jsGet mp key = v) (h0 : v ≠ .undefined) :
    Schema.readProperty mp key dflt = v := by
  unfold Schema.readProperty
  rw [h]
  cases v
  · exact absurd rfl h0
  all_goals rfl

/-- When the key is absent, `readProperty` returns the supplied default. -/
theorem readProperty_absent (mp : JsValue) (key : String) (dflt : JsValue)
    (h : jsGet mp key = .undefined) :
    Schema.readProperty mp key dflt = dflt := by
  unfold Schema.readProperty
  rw [h]

/-- Whenever `fromMapping` succeeds, the produced schema's `_timeout` and
`_deprecated` fields are the mapped values with their documented defaults. -/
theorem fromMapping_ok_fields (name : String) (mp : JsValue) (s : ActionSchema)
    (h : ActionSchema.fromMapping name mp = .ok s) :
    s._timeout = Schema.readProperty mp "timeout" (.num 1000) ∧
    s._deprecated = Schema.readProperty mp "is_deprecated" (.bool false) := by
  simp only [ActionSchema.fromMapping] at h
  split at h
  · exact Except.noConfusion h
  · exact Except.noConfusion h
  · exact Except.noConfusion h
  · injection h with h2
    subst h2
    exact ⟨rfl, rfl⟩

/-- Whether an `Except` result is a success (JS: the call returned rather
than threw). -/
def exceptIsOk {ε α : Type} : Except ε α → Bool
  | .ok _ => true
  | .error _ => false

/-- C1: against the claim, `resolveEntity` never descends: for the schema
built by `fromMapping` with entity path `"a/b"` and delimiter `"/"`, and data
`{a:{b:{x:1}}}`, it returns the data unchanged instead of the nested value
`{x:1}` — the implementation tests `this._entityPath`, a property never
assigned by the constructor — even though `getEntityPath` reports the
configured path `"a/b"`. -/
theorem resolveEntity_ignores_configured_entity_path :
    (ActionSchema.fromMapping "users"
        (.obj [("entity_path", .str "a/b"), ("path_delimiter", .str "/")])).bind
      (fun s => s.resolveEntity
        (.obj [("a", .obj [("b", .obj [("x", .num 1)])])])) =
      .ok (.obj [("a", .obj [("b", .obj [("x", .num 1)])])]) ∧
    (ActionSchema.fromMapping "users"
        (.obj [("entity_path", .str "a/b"), ("path_delimiter", .str "/")])).map
      ActionSchema.getEntityPath = .ok (.str "a/b") ∧
    jsGet (jsGet (.obj [("a", .obj [("b", .obj [("x", .num 1)])])]) "a") "b" =
      .obj [("x", .num 1)] := by
  exact ⟨rfl, rfl, rfl⟩

/-- C2: against the claim, `hasCall` (and `hasDeferCall`) answer `false` even
for a declared call that agrees with every supplied filter: with declared
calls `[{serviceName:"a", serviceVersion:"1.0", actionName:"x"}]`,
`hasCall("a")` is `false` (the claim says `true`), as is even the fully
matching query `hasCall("a","1.0","x")` — the filter callback never returns
`true`, so no candidate ever counts as a match.  The two queries the claim
expects to be `false` do evaluate to `false`. -/
theorem hasCall_false_on_matching_declared_call :
    (({ baseSchema with
          _calls := .arr [.obj [("serviceName", .str "a"),
            ("serviceVersion", .str "1.0"), ("actionName", .str "x")]],
          _deferredCalls := .arr [.obj [("serviceName", .str "a"),
            ("serviceVersion", .str "1.0"), ("actionName", .str "x")]] } :
        ActionSchema).hasCall (.str "a") = .ok false) ∧
    (({ baseSchema with
          _calls := .arr [.obj [("serviceName", .str "a"),
            ("serviceVersion", .str "1.0"), ("actionName", .str "x")]] } :
        ActionSchema).hasCall (.str "a") (.str "1.0") (.str "x") = .ok false) ∧
    (({ baseSchema with
          _deferredCalls := .arr [.obj [("serviceName", .str "a"),
            ("serviceVersion", .str "1.0"), ("actionName", .str "x")]] } :
        ActionSchema).hasDeferCall (.str "a") = .ok false) ∧
    (({ baseSchema with
          _calls := .arr [.obj [("serviceName", .str "a"),
            ("serviceVersion", .str "1.0"), ("actionName", .str "x")]] } :
        ActionSchema).hasCall (.str "a") (.str "2.0") = .ok false) ∧
    (({ baseSchema with
          _calls := .arr [.obj [("serviceName", .str "a"),
            ("serviceVersion", .str "1.0"), ("actionName", .str "x")]] } :
        ActionSchema).hasCall (.str "b") = .ok false) := by
  exact ⟨rfl, rfl, rfl, rfl, rfl⟩

/-- C3: the failure half of the claim holds — `getParamSchema` throws the
resolution error exactly on undeclared names — but on a declared name it
returns `null` (the `return param` inside the `forEach` callback is
discarded), not the matching ParamSchema the claim requires. -/
theorem getParamSchema_null_on_declared_param :
    (({ baseSchema with _params := [{ _name := "p" }] } : ActionSchema).hasParam "p"
        = true) ∧
    (({ baseSchema with _params := [{ _name := "p" }] } : ActionSchema).getParamSchema "p"
        = .ok none) ∧
    (({ baseSchema with _params := [{ _name := "p" }] } : ActionSchema).hasParam "q"
        = false) ∧
    (({ baseSchema with _params := [{ _name := "p" }] } : ActionSchema).getParamSchema "q"
        = .error (.thrown "Cannot resolve schema for parameter: q")) := by
  exact ⟨rfl, rfl, rfl, rfl⟩

/-- C4: against the claim, for a schema built by `fromMapping` from a mapping
declaring one file under the key `"doc"`, `hasFile("doc")` is `false` and
`getFileSchema("doc")` throws, while `hasFile("0")` is `true`: `fromMapping`
stores the files as a JS array, which `hasFile`/`getFileSchema` index by the
queried name, so declared names are never found and array index strings
are. -/
theorem hasFile_false_on_declared_file_name :
    (ActionSchema.fromMapping "act" (.obj [("files", .obj [("doc", .obj [])])])).map
        (fun s => s.hasFile "doc") = .ok false ∧
    (ActionSchema.fromMapping "act" (.obj [("files", .obj [("doc", .obj [])])])).bind
        (fun s => s.getFileSchema "doc") =
      .error (.thrown "Cannot resolve schema for file parameter: doc") ∧
    (ActionSchema.fromMapping "act" (.obj [("files", .obj [("doc", .obj [])])])).map
        (fun s => s.hasFile "0") = .ok true ∧
    (ActionSchema.fromMapping "act" (.obj [("files", .obj [("doc", .obj [])])])).map
        ActionSchema.getFiles = .ok ["0"] := by
  exact ⟨rfl, rfl, rfl, rfl⟩

/-- C5: reply and timeout are mutually exclusive, and the response handler
runs at most once.  A reply that arrives first cancels the timer
(`clearTimeout` in `_parseReply`) and forwards exactly the decoded payload to
`_processRuntimeResponse`, and a later timer expiry is a no-op; a reply that
arrives after timer expiry is never delivered (the uncaught `throw` in the
timer callback has terminated the process, so nothing further is
processed). -/
theorem runtime_call_reply_timeout_exclusive (a : Action)
    (svc ver tact : String) (params files : JsValue) (p : PackedBytes) :
    (runCall (ZMQRuntimeCaller.call a svc ver tact params files)
        [.message p]).delivered = [msgpackUnpack p] ∧
    (runCall (ZMQRuntimeCaller.call a svc ver tact params files)
        [.message p]).timerArmed = false ∧
    (runCall (ZMQRuntimeCaller.call a svc ver tact params files)
        [.message p, .timerFire]).delivered = [msgpackUnpack p] ∧
    (runCall (ZMQRuntimeCaller.call a svc ver tact params files)
        [.message p, .timerFire]).crashed = none ∧
    (runCall (ZMQRuntimeCaller.call a svc ver tact params files)
        [.timerFire, .message p]).delivered = [] := by
  exact ⟨rfl, rfl, rfl, rfl, rfl⟩

/-- C6: the timeout failure does carry the unreachable (service, version,
action) triple, but against the claim it does not surface on the caller's
error-handling path: the timer callback throws an uncaught exception — a
process-level crash — and nothing is ever forwarded to the calling action's
response-processing entry point. -/
theorem runtime_call_timeout_is_uncaught_crash (a : Action)
    (svc ver tact : String) (params files : JsValue) :
    (runCall (ZMQRuntimeCaller.call a svc ver tact params files)
        [.timerFire]).crashed = some (timeoutMessage svc ver tact) ∧
    (runCall (ZMQRuntimeCaller.call a svc ver tact params files)
        [.timerFire]).delivered = [] := by
  exact ⟨rfl, rfl⟩

/-- C7: against the claim, a mapping that omits `calls`, `deferred_calls` and
`remote_calls` produces a schema whose three call fields are the boolean
`false` (the defaults `fromMapping` passes), so `hasCall`, `hasDeferCall` and
`hasRemoteCall` all throw a TypeError (`false.filter` is not a function)
instead of returning `false`. -/
theorem absent_call_mappings_make_call_queries_throw :
    (ActionSchema.fromMapping "act" (.obj [])).map (fun s => s._calls)
        = .ok (.bool false) ∧
    (ActionSchema.fromMapping "act" (.obj [])).bind (fun s => s.hasCall (.str "a"))
        = .error (.typeError "filter is not a function") ∧
    (ActionSchema.fromMapping "act" (.obj [])).bind (fun s => s.hasDeferCall (.str "a"))
        = .error (.typeError "filter is not a function") ∧
    (ActionSchema.fromMapping "act" (.obj [])).bind
        (fun s => s.hasRemoteCall (.str "addr"))
        = .error (.typeError "filter is not a function") := by
  exact ⟨rfl, rfl, rfl, rfl⟩

/-- C8: parsing round-trip for `timeout` and `is_deprecated`: whenever
`fromMapping` succeeds on a mapping supplying explicit (present,
non-`undefined`) values, `getTimeout`/`isDeprecated` return exactly those
values; on a mapping omitting both keys they return the defaults `1000` and
`false`. -/
theorem fromMapping_timeout_deprecated_roundtrip (name : String)
    (mp mp' t d : JsValue)
    (hok : exceptIsOk (ActionSchema.fromMapping name mp) = true)
    (ht : jsGet mp "timeout" = t) (ht0 : t ≠ .undefined)
    (hd : jsGet mp "is_deprecated" = d) (hd0 : d ≠ .undefined)
    (hok2 : exceptIsOk (ActionSchema.fromMapping name mp') = true)
    (hmt : jsGet mp' "timeout" = .undefined)
    (hmd : jsGet mp' "is_deprecated" = .undefined) :
    (ActionSchema.fromMapping name mp).map
        (fun s => (s.getTimeout, s.isDeprecated)) = .ok (t, d) ∧
    (ActionSchema.fromMapping name mp').map
        (fun s => (s.getTimeout, s.isDeprecated)) = .ok (.num 1000, .bool false) := by
  constructor
  · cases hfm : ActionSchema.fromMapping name mp with
    | error e => rw [hfm] at hok; exact Bool.noConfusion hok
    | ok s =>
      have hf := fromMapping_ok_fields name mp s hfm
      simp only [Except.map, ActionSchema.getTimeout, ActionSchema.isDeprecated,
        hf.1, hf.2, readProperty_present mp "timeout" (.num 1000) t ht ht0,
        readProperty_present mp "is_deprecated" (.bool false) d hd hd0]
  · cases hfm : ActionSchema.fromMapping name mp' with
    | error e => rw [hfm] at hok2; exact Bool.noConfusion hok2
    | ok s =>
      have hf := fromMapping_ok_fields name mp' s hfm
      simp only [Except.map, ActionSchema.getTimeout, ActionSchema.isDeprecated,
        hf.1, hf.2, readProperty_absent mp' "timeout" (.num 1000) hmt,
        readProperty_absent mp' "is_deprecated" (.bool false) hmd]

/-- Witness for C8 at concrete mappings: `{timeout: 5000, is_deprecated:
true}` round-trips to exactly those values, and the empty mapping yields the
defaults `1000` and `false`. -/
theorem fromMapping_timeout_deprecated_roundtrip_witness :
    (ActionSchema.fromMapping "a"
        (.obj [("timeout", .num 5000), ("is_deprecated", .bool true)])).map
      (fun s => (s.getTimeout, s.isDeprecated)) = .ok (.num 5000, .bool true) ∧
    (ActionSchema.fromMapping "a" (.obj [])).map
      (fun s => (s.getTimeout, s.isDeprecated)) = .ok (.num 1000, .bool false) :=
  fromMapping_timeout_deprecated_roundtrip "a"
    (.obj [("timeout", .num 5000), ("is_deprecated", .bool true)]) (.obj [])
    (.num 5000) (.bool true) rfl rfl (fun h => JsValue.noConfusion h) rfl
    (fun h => JsValue.noConfusion h) rfl rfl rfl

/-- C9: the message sent by `call` is two frames — the single control byte
`0x01`, then the msgpack-encoded envelope — and the envelope carries
`meta.service = "service"`, command name `"runtime-call"`, and arguments
holding the calling action, the callee triple `[service, version,
targetAction]`, the caller's transport snapshot, and the forwarded params and
files. -/
theorem runtime_call_frames_and_envelope (a : Action)
    (svc ver tact : String) (params files : JsValue) :
    (ZMQRuntimeCaller.call a svc ver tact params files).frames =
      [.bytes [0x01],
        .packed (msgpackPack (buildRuntimeCommand a svc ver tact params files))] ∧
    jsGet (buildRuntimeCommand a svc ver tact params files) "meta" =
      .obj [("service", .str "service")] ∧
    jsGet (jsGet (buildRuntimeCommand a svc ver tact params files) "command") "name" =
      .str "runtime-call" ∧
    jsGet (jsGet (jsGet (buildRuntimeCommand a svc ver tact params files) "command")
        "arguments") "action" = a.self ∧
    jsGet (jsGet (jsGet (buildRuntimeCommand a svc ver tact params files) "command")
        "arguments") "callee" = .arr [.str svc, .str ver, .str tact] ∧
    jsGet (jsGet (jsGet (buildRuntimeCommand a svc ver tact params files) "command")
        "arguments") "transport" = a.transportObj ∧
    jsGet (jsGet (jsGet (buildRuntimeCommand a svc ver tact params files) "command")
        "arguments") "params" = params ∧
    jsGet (jsGet (jsGet (buildRuntimeCommand a svc ver tact params files) "command")
        "arguments") "files" = files := by
  exact ⟨rfl, rfl, rfl, rfl, rfl, rfl, rfl, rfl⟩

/-- C10: `hasReturn()` being true is a precondition of `getReturnType()`:
whenever the return-value schema is absent (`hasReturn()` false),
`getReturnType()` throws (a TypeError from calling a method on `null`)
instead of returning a value. -/
theorem getReturnType_requires_hasReturn (s : ActionSchema)
    (h : s.hasReturn = false) :
    s.getReturnType = .error (.typeError "Cannot read property getType of null") := by
  cases hr : s._returnValue with
  | none => simp only [ActionSchema.getReturnType, hr]
  | some r =>
    rw [ActionSchema.hasReturn, hr] at h
    exact Bool.noConfusion h

/-- Witness for C10: the default schema has no return-value schema, and
`getReturnType` on it throws. -/
theorem getReturnType_requires_hasReturn_witness :
    baseSchema.hasReturn = false ∧
    baseSchema.getReturnType =
      .error (.typeError "Cannot read property getType of null") :=
  ⟨rfl, getReturnType_requires_hasReturn baseSchema rfl⟩

end Katana
